import Mathlib

/-!
Verification of `src/tsmc_stock.py`: a script that fetches the latest
TSMC quote and one month of daily OHLC bars from a finance API and renders
a candlestick chart.

Shallow embedding choices:
* JSON numbers are modelled as rationals (`ℚ`); epoch-second timestamps as
  integers (`ℤ`).  `float(x)` on an already-numeric value is the identity.
* Nullable array entries (`null` inside the JSON arrays) are `Option` values.
* A JSON key whose presence is not guaranteed is an `Option` field of the
  containing structure; `d[k]` on a missing key is a `KeyError`,
  `d.get(k, default)` yields the default, `l[0]` on an empty list is an
  `IndexError`.  Python exceptions become the `Except PyErr` monad.
* `datetime.fromtimestamp` is kept abstract: the candle's `time` field
  stores the epoch seconds it was built from.
-/

/-- Python exceptions raised by the script: `KeyError` (missing dict key),
`IndexError` (empty-list subscript) and `ValueError` (explicit raise). -/
inductive PyErr where
  | keyError (key : String)
  | indexError
  | valueError (msg : String)
deriving DecidableEq, Repr

/-- `d[k]` on a modelled optional field: the value, or `KeyError`. -/
def getKey {α : Type} (field : Option α) (key : String) : Except PyErr α :=
  match field with
  | some a => Except.ok a
  | none => Except.error (PyErr.keyError key)

/-- `l[0]`: the head of a list, or `IndexError` when it is empty. -/
def getIdx0 {α : Type} (l : List α) : Except PyErr α :=
  match l with
  | a :: _ => Except.ok a
  | [] => Except.error PyErr.indexError

/-- One element of `data["quoteResponse"]["result"]`.  Only the field the
script reads is modelled. -/
structure QuoteResult where
  regularMarketPrice : ℚ
deriving DecidableEq, Repr

/-- The body of a quote response: `{"quoteResponse": {"result": [...]}}`.
The claims quantify over responses that reach the `result` list, so the
two enclosing key lookups are collapsed into the list itself. -/
structure QuoteResponse where
  result : List QuoteResult
deriving DecidableEq, Repr

/-- `fetch_latest_price` (src/tsmc_stock.py lines 21-29), after the HTTP
request and JSON decode: raises `ValueError` on an empty result list,
otherwise returns `float(result[0]["regularMarketPrice"])`. -/
def fetch_latest_price (resp : QuoteResponse) : Except PyErr ℚ :=
  let result := resp.result
  match result with
  | [] => Except.error (PyErr.valueError "No quote data returned for ticker 2330.TW")
  | r :: _ => Except.ok r.regularMarketPrice

/-- The inner quote object `data["indicators"]["quote"][0]` with its four
nullable price arrays; each key may be absent. -/
structure RawQuote where
  open_ : Option (List (Option ℚ))
  high : Option (List (Option ℚ))
  low : Option (List (Option ℚ))
  close : Option (List (Option ℚ))
deriving DecidableEq, Repr

/-- `data["indicators"]`: holds the `"quote"` list (key may be absent). -/
structure RawIndicators where
  quote : Option (List RawQuote)
deriving DecidableEq, Repr

/-- One element of `data["chart"]["result"]`: nullable timestamps (key may
be absent — the script reads it with `.get("timestamp", [])`) and the
indicators object. -/
structure RawResult where
  timestamp : Option (List (Option ℤ))
  indicators : Option RawIndicators
deriving DecidableEq, Repr

/-- `data["chart"]`: holds the `"result"` list (key may be absent). -/
structure RawChart where
  result : Option (List RawResult)
deriving DecidableEq, Repr

/-- A whole chart response body: the `"chart"` key may be absent. -/
structure ChartResponse where
  chart : Option RawChart
deriving DecidableEq, Repr

/-- One produced price bar (the dict appended to `candles`). -/
structure Candle where
  time : ℤ
  open_ : ℚ
  high : ℚ
  low : ℚ
  close : ℚ
deriving DecidableEq, Repr

instance : Inhabited Candle := ⟨⟨0, 0, 0, 0, 0⟩⟩

/-- Python's five-argument `zip`: pairs elements at the same index, stopping
at the shortest input. -/
def zip5 {α β γ δ ε : Type} :
    List α → List β → List γ → List δ → List ε → List (α × β × γ × δ × ε)
  | a :: as, b :: bs, c :: cs, d :: ds, e :: es =>
      (a, b, c, d, e) :: zip5 as bs cs ds es
  | _, _, _, _, _ => []

/-- The loop body of `fetch_chart_data`: skip the tuple when any of the
five values is `None`, otherwise build the candle dict. -/
def mkCandle : Option ℤ × Option ℚ × Option ℚ × Option ℚ × Option ℚ → Option Candle
  | (some ts, some o, some h, some l, some c) => some ⟨ts, o, h, l, c⟩
  | _ => none

/-- The `for`-loop of `fetch_chart_data` (lines 43-57): zip the five arrays,
`continue` on any `None`, append the candle otherwise. -/
def buildCandles (tss : List (Option ℤ)) (os hs ls cs : List (Option ℚ)) :
    List Candle :=
  (zip5 tss os hs ls cs).filterMap mkCandle

/-- `fetch_chart_data` (lines 32-57), after the HTTP request and JSON
decode: navigate `["chart"]["result"][0]`, read `timestamp` with an empty
default, navigate `["indicators"]["quote"][0]`, read the four price arrays,
then run the candle-building loop. -/
def fetch_chart_data (resp : ChartResponse) : Except PyErr (List Candle) := do
  let chartObj ← getKey resp.chart "chart"
  let resultList ← getKey chartObj.result "result"
  let data ← getIdx0 resultList
  let timestamps := data.timestamp.getD []
  let indicators ← getKey data.indicators "indicators"
  let quoteList ← getKey indicators.quote "quote"
  let quotes ← getIdx0 quoteList
  let opens ← getKey quotes.open_ "open"
  let highs ← getKey quotes.high "high"
  let lows ← getKey quotes.low "low"
  let closes ← getKey quotes.close "close"
  return buildCandles timestamps opens highs lows closes

/-! ## The renderer (`plot_candlestick`, lines 60-86)

Matplotlib calls are modelled by the data they receive.  Each
`ax.plot([x1, x2], [y1, y2], color=c, linewidth=w)` call becomes a `Seg`
record; the title, axis labels, grid, layout and `plt.show()` carry no
bar-dependent data and are not modelled.  `strftime("%m-%d")` is kept
abstract: a tick label is recorded as the epoch time it would format. -/

/-- One `ax.plot` call: a line segment with a colour and a line width. -/
structure Seg where
  x1 : ℚ
  x2 : ℚ
  y1 : ℚ
  y2 : ℚ
  color : String
  linewidth : ℚ
deriving DecidableEq, Repr

/-- The colour chosen on line 69: green when `close >= open`, red
otherwise. -/
def barColor (c : Candle) : String :=
  if c.close ≥ c.open_ then "#2ca02c" else "#d62728"

/-- The three `ax.plot` calls issued for the bar at position `idx`
(lines 70-72): the low-high wick at `x = idx`, the open tick on
`[idx - 0.2, idx]` and the close tick on `[idx, idx + 0.2]`. -/
def barSegs (idx : ℕ) (c : Candle) : List Seg :=
  let color := barColor c
  [⟨idx, idx, c.low, c.high, color, 1⟩,
   ⟨(idx : ℚ) - 2/10, idx, c.open_, c.open_, color, 3⟩,
   ⟨idx, (idx : ℚ) + 2/10, c.close, c.close, color, 3⟩]

/-- The `for idx, candle in enumerate(candles)` loop (lines 68-72),
accumulating the plot calls in order. -/
def renderSegs : ℕ → List Candle → List Seg
  | _, [] => []
  | idx, c :: rest => barSegs idx c ++ renderSegs (idx + 1) rest

/-- Python's `range(0, stop, step)` for a positive step. -/
def pyRange (stop step : ℕ) : List ℕ :=
  (List.range ((stop + step - 1) / step)).map (· * step)

/-- Everything bar-dependent that a successful render sends to
matplotlib: the segments, the x-axis limits, the tick positions and the
tick-label times. -/
structure RenderData where
  segs : List Seg
  xlim : ℚ × ℚ
  ticks : List ℕ
  labels : List ℤ
deriving DecidableEq, Repr

/-- The outcome of `plot_candlestick`: either the printed no-data notice
followed by an early return, or a rendered chart. -/
inductive RenderResult where
  | noData (notice : String)
  | rendered (r : RenderData)
deriving DecidableEq, Repr

/-- `plot_candlestick` (lines 60-86): print a notice and return when the
candle list is empty; otherwise emit three segments per bar, set
`xlim = (-1, n)`, and put ticks at `range(0, n, max(n // 6, 1))` labelled
with the corresponding candles' times. -/
def plot_candlestick (candles : List Candle) : RenderResult :=
  if candles = [] then
    RenderResult.noData "沒有可以繪圖的價量資料。"
  else
    let segs := renderSegs 0 candles
    let n := candles.length
    let step := max (n / 6) 1
    let ticks := pyRange n step
    let labels := ticks.map (fun i => (candles.getD i default).time)
    RenderResult.rendered ⟨segs, (-1, n), ticks, labels⟩

/-- A chart response in which every key on the parse path is present and
both lists are non-empty, carrying the five given arrays: the canonical
well-formed response shape described in the spec's External Interfaces
section. -/
def wrapChart (tss : List (Option ℤ)) (os hs ls cs : List (Option ℚ)) :
    ChartResponse :=
  ⟨some ⟨some [⟨some tss, some ⟨some [⟨some os, some hs, some ls, some cs⟩]⟩⟩]⟩⟩

/-- The five values found at index `i` of the five parallel arrays
(`none` past the end, matching how `zip` never reads there). -/
def idxTuple (tss : List (Option ℤ)) (os hs ls cs : List (Option ℚ)) (i : ℕ) :
    Option ℤ × Option ℚ × Option ℚ × Option ℚ × Option ℚ :=
  (tss.getD i none, os.getD i none, hs.getD i none, ls.getD i none, cs.getD i none)

/-- The length of the shortest of the five parallel arrays. -/
def minLen5 (tss : List (Option ℤ)) (os hs ls cs : List (Option ℚ)) : ℕ :=
  min tss.length (min os.length (min hs.length (min ls.length cs.length)))

/-- The key/subscript accesses `fetch_chart_data` performs with a bare
`[...]` (the ones whose failure raises): `chart`, `result`, `result[0]`,
`indicators`, `quote`, `quote[0]`, `open`, `high`, `low`, `close`.  The
`timestamp` key is deliberately NOT here: the script reads it with
`.get("timestamp", [])`. -/
def chartWellFormed (resp : ChartResponse) : Bool :=
  match resp.chart with
  | none => false
  | some chartObj =>
    match chartObj.result with
    | none => false
    | some resultList =>
      match resultList with
      | [] => false
      | data :: _ =>
        match data.indicators with
        | none => false
        | some indicators =>
          match indicators.quote with
          | none => false
          | some quoteList =>
            match quoteList with
            | [] => false
            | quotes :: _ =>
              quotes.open_.isSome && quotes.high.isSome &&
                quotes.low.isSome && quotes.close.isSome

/-- Value equality of two candles, field by field (the spec's notion of
"equal by value, regardless of object identity"). -/
def candleFieldsEq (a b : Candle) : Prop :=
  a.time = b.time ∧ a.open_ = b.open_ ∧ a.high = b.high ∧
    a.low = b.low ∧ a.close = b.close

/-- **C2**: for every quote response whose result list is non-empty, the
Quote Fetcher returns exactly the numeric value at
`result[0].regularMarketPrice` (float conversion is the identity on the
modelled numbers). -/
theorem quote_fetcher_nonempty (resp : QuoteResponse) (r : QuoteResult)
    (rest : List QuoteResult) (h : resp.result = r :: rest) :
    fetch_latest_price resp = Except.ok r.regularMarketPrice := by
  cases resp
  simp only [QuoteResponse.mk.injEq] at h
  subst h
  rfl

/-- Witness for C2: a concrete one-element result list returns its price. -/
theorem quote_fetcher_nonempty_witness :
    fetch_latest_price ⟨[⟨(575 : ℚ)⟩]⟩ = Except.ok (575 : ℚ) :=
  quote_fetcher_nonempty ⟨[⟨(575 : ℚ)⟩]⟩ ⟨(575 : ℚ)⟩ [] rfl

/-- **C3**: for every quote response whose result list is empty, the Quote
Fetcher raises the data-unavailable `ValueError` instead of returning. -/
theorem quote_fetcher_empty (resp : QuoteResponse) (h : resp.result = []) :
    fetch_latest_price resp =
      Except.error (PyErr.valueError "No quote data returned for ticker 2330.TW") := by
  cases resp
  simp only [QuoteResponse.mk.injEq] at h
  subst h
  rfl

/-- Witness for C3: the concrete empty-result response errors. -/
theorem quote_fetcher_empty_witness :
    fetch_latest_price ⟨[]⟩ =
      Except.error (PyErr.valueError "No quote data returned for ticker 2330.TW") :=
  quote_fetcher_empty ⟨[]⟩ rfl

/-! ## List lemmas about the candle-building loop -/

/-- When the five arrays all have length `n`, `zip5` is positional access
over `range n`. -/
theorem zip5_eq_map_range (tss : List (Option ℤ)) :
    ∀ (os hs ls cs : List (Option ℚ)) (n : ℕ),
      tss.length = n → os.length = n → hs.length = n → ls.length = n →
      cs.length = n →
      zip5 tss os hs ls cs =
        (List.range n).map (fun i => idxTuple tss os hs ls cs i) := by
  induction tss with
  | nil =>
    intro os hs ls cs n h₁ _ _ _ _
    subst h₁
    rfl
  | cons t tss ih =>
    intro os hs ls cs n h₁ h₂ h₃ h₄ h₅
    subst h₁
    match os, hs, ls, cs with
    | [], _, _, _ => simp at h₂
    | _ :: _, [], _, _ => simp at h₃
    | _ :: _, _ :: _, [], _ => simp at h₄
    | _ :: _, _ :: _, _ :: _, [] => simp at h₅
    | o :: os, hi :: hs, lo :: ls, cl :: cs =>
      simp only [List.length_cons, Nat.succ.injEq] at h₂ h₃ h₄ h₅
      have step : zip5 (t :: tss) (o :: os) (hi :: hs) (lo :: ls) (cl :: cs) =
          (t, o, hi, lo, cl) :: zip5 tss os hs ls cs := rfl
      rw [step, ih os hs ls cs tss.length rfl h₂ h₃ h₄ h₅,
        show (t :: tss).length = tss.length + 1 from rfl,
        List.range_succ_eq_map, List.map_cons, List.map_map]
      constructor

/-- The candle loop over equal-length arrays, as a `filterMap` over the
index range. -/
theorem buildCandles_eq_filterMap_range (tss : List (Option ℤ))
    (os hs ls cs : List (Option ℚ)) (n : ℕ)
    (h₁ : tss.length = n) (h₂ : os.length = n) (h₃ : hs.length = n)
    (h₄ : ls.length = n) (h₅ : cs.length = n) :
    buildCandles tss os hs ls cs =
      (List.range n).filterMap (fun i => mkCandle (idxTuple tss os hs ls cs i)) := by
  rw [buildCandles, zip5_eq_map_range tss os hs ls cs n h₁ h₂ h₃ h₄ h₅,
    List.filterMap_map]
  rfl

/-- **C1**: for every chart response whose five parallel arrays have equal
length `n`, the Chart Data Fetcher returns exactly one bar per index at
which none of the five values is null, in input-index order (a `filterMap`
over `range n`), and the number of bars equals the number of such indices. -/
theorem chart_bars_exact (tss : List (Option ℤ)) (os hs ls cs : List (Option ℚ))
    (n : ℕ) (h₁ : tss.length = n) (h₂ : os.length = n) (h₃ : hs.length = n)
    (h₄ : ls.length = n) (h₅ : cs.length = n) :
    fetch_chart_data (wrapChart tss os hs ls cs) =
      Except.ok ((List.range n).filterMap
        (fun i => mkCandle (idxTuple tss os hs ls cs i))) ∧
    ((List.range n).filterMap (fun i => mkCandle (idxTuple tss os hs ls cs i))).length =
      ((List.range n).filter
        (fun i => (mkCandle (idxTuple tss os hs ls cs i)).isSome)).length := by
  constructor
  · show Except.ok (buildCandles tss os hs ls cs) = _
    rw [buildCandles_eq_filterMap_range tss os hs ls cs n h₁ h₂ h₃ h₄ h₅]
  · rw [List.length_filterMap_eq_countP, List.countP_eq_length_filter]

/-- Witness for C1 at a concrete two-index response with one null value. -/
theorem chart_bars_exact_witness :
    fetch_chart_data (wrapChart [some 1700000000, some 1700086400]
        [some 100, none] [some 110, some 111] [some 95, some 96]
        [some 105, some 106]) =
      Except.ok ((List.range 2).filterMap
        (fun i => mkCandle (idxTuple [some 1700000000, some 1700086400]
          [some 100, none] [some 110, some 111] [some 95, some 96]
          [some 105, some 106] i))) ∧
    ((List.range 2).filterMap
        (fun i => mkCandle (idxTuple [some 1700000000, some 1700086400]
          [some 100, none] [some 110, some 111] [some 95, some 96]
          [some 105, some 106] i))).length =
      ((List.range 2).filter
        (fun i => (mkCandle (idxTuple [some 1700000000, some 1700086400]
          [some 100, none] [some 110, some 111] [some 95, some 96]
          [some 105, some 106] i)).isSome)).length :=
  chart_bars_exact [some 1700000000, some 1700086400] [some 100, none]
    [some 110, some 111] [some 95, some 96] [some 105, some 106] 2
    rfl rfl rfl rfl rfl

/-- A `filterMap` ignores elements on which it yields `none`, so the list
may first be filtered by any predicate that only discards such elements. -/
theorem filterMap_eq_filterMap_filter {α β : Type} (p : α → Bool)
    (g : α → Option β) :
    ∀ l : List α, (∀ a ∈ l, p a = false → g a = none) →
      l.filterMap g = (l.filter p).filterMap g := by
  intro l
  induction l with
  | nil => intro _; rfl
  | cons a l ih =>
    intro hl
    have hrest : ∀ b ∈ l, p b = false → g b = none := by
      intro b hb
      exact hl b (List.mem_cons_of_mem a hb)
    rcases hp : p a with _ | _
    · rw [List.filter_cons_of_neg (by simp [hp]),
        List.filterMap_cons_none (hl a (List.mem_cons_self a l) hp), ih hrest]
    · rw [List.filter_cons_of_pos (by simp [hp]), List.filterMap_cons,
        List.filterMap_cons, ih hrest]

/-- Counting the non-`2` indices below `n`. -/
theorem length_filter_ne_two :
    ∀ m : ℕ, ((List.range (m + 3)).filter (fun i => i ≠ 2)).length = m + 2 := by
  intro m
  induction m with
  | zero => decide
  | succ k ih =>
    have e : k + 1 + 3 = (k + 3) + 1 := by omega
    have hk : ((k + 3 : ℕ) ≠ 2) := by omega
    rw [e, List.range_succ, List.filter_append, List.length_append, ih]
    simp [hk]

/-- **C6**: five equal-length arrays of length `n` in which exactly the
close value at index 2 is null: the fetcher returns the bars of the
non-`2` indices only (no placeholder at position 2), and the bar count is
`n - 1`. -/
theorem chart_skip_null_close (tss : List (Option ℤ))
    (os hs ls cs : List (Option ℚ)) (n : ℕ)
    (h₁ : tss.length = n) (h₂ : os.length = n) (h₃ : hs.length = n)
    (h₄ : ls.length = n) (h₅ : cs.length = n) (hn : 2 < n)
    (hsome : ∀ i, i < n → i ≠ 2 → (mkCandle (idxTuple tss os hs ls cs i)).isSome)
    (hnull : cs.getD 2 none = none)
    (_h2rest : (tss.getD 2 none).isSome ∧ (os.getD 2 none).isSome ∧
      (hs.getD 2 none).isSome ∧ (ls.getD 2 none).isSome) :
    fetch_chart_data (wrapChart tss os hs ls cs) =
      Except.ok (((List.range n).filter (fun i => i ≠ 2)).filterMap
        (fun i => mkCandle (idxTuple tss os hs ls cs i))) ∧
    (buildCandles tss os hs ls cs).length = n - 1 := by
  have hbc := buildCandles_eq_filterMap_range tss os hs ls cs n h₁ h₂ h₃ h₄ h₅
  have g2 : mkCandle (idxTuple tss os hs ls cs 2) = none := by
    simp only [idxTuple, hnull]
    rcases tss.getD 2 none with _ | a <;> rcases os.getD 2 none with _ | b <;>
      rcases hs.getD 2 none with _ | c <;> rcases ls.getD 2 none with _ | d <;> rfl
  have hsplit : (List.range n).filterMap
        (fun i => mkCandle (idxTuple tss os hs ls cs i)) =
      ((List.range n).filter (fun i => i ≠ 2)).filterMap
        (fun i => mkCandle (idxTuple tss os hs ls cs i)) := by
    refine filterMap_eq_filterMap_filter _ _ (List.range n) ?_
    intro a _ hpa
    have ha2 : a = 2 := by simpa using hpa
    rw [ha2, g2]
  constructor
  · show Except.ok (buildCandles tss os hs ls cs) = _
    rw [hbc, hsplit]
  · rw [hbc, hsplit, List.length_filterMap_eq_countP]
    have hall : ∀ a ∈ (List.range n).filter (fun i => i ≠ 2),
        (mkCandle (idxTuple tss os hs ls cs a)).isSome := by
      intro a ha
      rw [List.mem_filter, List.mem_range] at ha
      exact hsome a ha.1 (by simpa using ha.2)
    rw [List.countP_eq_length.mpr hall]
    obtain ⟨m, rfl⟩ : ∃ m, n = m + 3 := ⟨n - 3, by omega⟩
    rw [length_filter_ne_two m]
    omega

/-- Witness for C6 at concrete length-3 arrays whose only null value is
`close[2]`. -/
theorem chart_skip_null_close_witness :
    fetch_chart_data (wrapChart [some 10, some 20, some 30]
        [some 1, some 2, some 3] [some 4, some 5, some 6]
        [some 0, some 1, some 2] [some 2, some 3, none]) =
      Except.ok (((List.range 3).filter (fun i => i ≠ 2)).filterMap
        (fun i => mkCandle (idxTuple [some 10, some 20, some 30]
          [some 1, some 2, some 3] [some 4, some 5, some 6]
          [some 0, some 1, some 2] [some 2, some 3, none] i))) ∧
    (buildCandles [some 10, some 20, some 30] [some 1, some 2, some 3]
        [some 4, some 5, some 6] [some 0, some 1, some 2]
        [some 2, some 3, none]).length = 3 - 1 :=
  chart_skip_null_close [some 10, some 20, some 30] [some 1, some 2, some 3]
    [some 4, some 5, some 6] [some 0, some 1, some 2] [some 2, some 3, none] 3
    rfl rfl rfl rfl rfl (by omega) (by decide) rfl (by decide)

/-- `zip5` stops at the shortest input. -/
theorem zip5_length :
    ∀ (tss : List (Option ℤ)) (os hs ls cs : List (Option ℚ)),
      (zip5 tss os hs ls cs).length = minLen5 tss os hs ls cs
  | t :: tss, o :: os, hi :: hs, lo :: ls, cl :: cs => by
    have ih := zip5_length tss os hs ls cs
    show (zip5 tss os hs ls cs).length + 1 = _
    rw [ih]
    simp only [minLen5, List.length_cons]
    omega
  | [], _, _, _, _ => by simp [zip5, minLen5]
  | _ :: _, [], _, _, _ => by simp [zip5, minLen5]
  | _ :: _, _ :: _, [], _, _ => by simp [zip5, minLen5]
  | _ :: _, _ :: _, _ :: _, [], _ => by simp [zip5, minLen5]
  | _ :: _, _ :: _, _ :: _, _ :: _, [] => by simp [zip5, minLen5]

/-- Zipping truncated inputs is truncating the zip. -/
theorem zip5_take :
    ∀ (k : ℕ) (tss : List (Option ℤ)) (os hs ls cs : List (Option ℚ)),
      zip5 (tss.take k) (os.take k) (hs.take k) (ls.take k) (cs.take k) =
        (zip5 tss os hs ls cs).take k
  | 0, _, _, _, _, _ => by simp [zip5]
  | k + 1, t :: tss, o :: os, hi :: hs, lo :: ls, cl :: cs => by
    have ih := zip5_take k tss os hs ls cs
    show (t, o, hi, lo, cl) :: zip5 (tss.take k) (os.take k) (hs.take k)
        (ls.take k) (cs.take k) = (t, o, hi, lo, cl) :: (zip5 tss os hs ls cs).take k
    rw [ih]
  | _ + 1, [], _, _, _, _ => by simp [zip5]
  | _ + 1, _ :: _, [], _, _, _ => by simp [zip5]
  | _ + 1, _ :: _, _ :: _, [], _, _ => by simp [zip5]
  | _ + 1, _ :: _, _ :: _, _ :: _, [], _ => by simp [zip5]
  | _ + 1, _ :: _, _ :: _, _ :: _, _ :: _, [] => by simp [zip5]

/-- **C10** (implicit): when the five arrays have unequal lengths the
fetcher does not fail — it returns the bars built by pairing elements only
up to the shortest array's length, silently discarding the longer arrays'
tails. -/
theorem chart_unequal_lengths_truncate (tss : List (Option ℤ))
    (os hs ls cs : List (Option ℚ)) :
    fetch_chart_data (wrapChart tss os hs ls cs) =
      Except.ok (buildCandles tss os hs ls cs) ∧
    buildCandles tss os hs ls cs =
      buildCandles (tss.take (minLen5 tss os hs ls cs))
        (os.take (minLen5 tss os hs ls cs))
        (hs.take (minLen5 tss os hs ls cs))
        (ls.take (minLen5 tss os hs ls cs))
        (cs.take (minLen5 tss os hs ls cs)) := by
  constructor
  · rfl
  · show _ = (zip5 _ _ _ _ _).filterMap mkCandle
    rw [zip5_take, ← zip5_length tss os hs ls cs, List.take_length]
    rfl

/-- Counterexample to C4 as stated: in this response the `timestamp`
field is absent (and every other documented field is present), yet the
fetcher returns a result — the empty bar list — instead of failing,
because the script reads `timestamp` with `.get("timestamp", [])`. -/
theorem chart_missing_timestamp_returns :
    (⟨none, some ⟨some [⟨some [some 1], some [some 2], some [some 3],
        some [some 4]⟩]⟩⟩ : RawResult).timestamp = none ∧
    fetch_chart_data ⟨some ⟨some [⟨none, some ⟨some [⟨some [some 1],
        some [some 2], some [some 3], some [some 4]⟩]⟩⟩]⟩⟩ =
      Except.ok [] :=
  ⟨rfl, rfl⟩

/-- **C4 (amended)**: the fetcher succeeds exactly when every field it
accesses with a bare subscript is present (`chart`, `result`, a first
result element, `indicators`, `quote`, a first quote element, and the four
price arrays — but NOT `timestamp`, which defaults to an empty list), and
every failure is a structural-parse error (`KeyError` or `IndexError`,
never the quote fetcher's `ValueError`). -/
theorem chart_structural_errors (resp : ChartResponse) :
    (fetch_chart_data resp).isOk = chartWellFormed resp ∧
    (∀ e, fetch_chart_data resp = Except.error e →
      e = PyErr.indexError ∨ ∃ k, e = PyErr.keyError k) := by
  obtain ⟨chart⟩ := resp
  rcases chart with _ | ⟨resultOpt⟩
  · exact ⟨rfl, by intro e he; cases he; exact Or.inr ⟨"chart", rfl⟩⟩
  rcases resultOpt with _ | resultList
  · exact ⟨rfl, by intro e he; cases he; exact Or.inr ⟨"result", rfl⟩⟩
  rcases resultList with _ | ⟨⟨tsOpt, indOpt⟩, rest⟩
  · exact ⟨rfl, by intro e he; cases he; exact Or.inl rfl⟩
  rcases indOpt with _ | ⟨quoteOpt⟩
  · exact ⟨rfl, by intro e he; cases he; exact Or.inr ⟨"indicators", rfl⟩⟩
  rcases quoteOpt with _ | quoteList
  · exact ⟨rfl, by intro e he; cases he; exact Or.inr ⟨"quote", rfl⟩⟩
  rcases quoteList with _ | ⟨⟨oOpt, hOpt, lOpt, cOpt⟩, qrest⟩
  · exact ⟨rfl, by intro e he; cases he; exact Or.inl rfl⟩
  rcases oOpt with _ | opens
  · exact ⟨rfl, by intro e he; cases he; exact Or.inr ⟨"open", rfl⟩⟩
  rcases hOpt with _ | highs
  · exact ⟨rfl, by intro e he; cases he; exact Or.inr ⟨"high", rfl⟩⟩
  rcases lOpt with _ | lows
  · exact ⟨rfl, by intro e he; cases he; exact Or.inr ⟨"low", rfl⟩⟩
  rcases cOpt with _ | closes
  · exact ⟨rfl, by intro e he; cases he; exact Or.inr ⟨"close", rfl⟩⟩
  exact ⟨rfl, by intro e he; cases he⟩

/-- Witness for C4: at the response missing the `chart` key, the fetcher
is not ok and the raised error is a `KeyError`. -/
theorem chart_structural_errors_witness :
    ((fetch_chart_data ⟨none⟩).isOk = chartWellFormed ⟨none⟩) ∧
    (PyErr.keyError "chart" = PyErr.indexError ∨
      ∃ k, PyErr.keyError "chart" = PyErr.keyError k) :=
  ⟨(chart_structural_errors ⟨none⟩).1,
    (chart_structural_errors ⟨none⟩).2 (PyErr.keyError "chart") rfl⟩

/-! ## Renderer claims -/

/-- **C5**: the renderer colours a bar green exactly when `close >= open`
and red exactly when `close < open`; in particular `close == open` is
green. -/
theorem renderer_color (c : Candle) :
    (barColor c = "#2ca02c" ↔ c.close ≥ c.open_) ∧
    (barColor c = "#d62728" ↔ c.close < c.open_) ∧
    (c.close = c.open_ → barColor c = "#2ca02c") := by
  by_cases h : c.close ≥ c.open_
  · refine ⟨by simp [barColor, h], ?_, fun _ => by simp [barColor, h]⟩
    constructor
    · intro hred
      rw [barColor, if_pos h] at hred
      exact absurd hred (by decide)
    · intro hlt
      exact absurd h (not_le.mpr hlt)
  · have hlt : c.close < c.open_ := not_le.mp h
    refine ⟨?_, by simp [barColor, h, hlt], fun he => absurd (ge_of_eq he) h⟩
    constructor
    · intro hgreen
      rw [barColor, if_neg h] at hgreen
      exact absurd hgreen.symm (by decide)
    · intro hge
      exact absurd hge h

/-- Witness for C5: a doji bar (`close = open`) is coloured green. -/
theorem renderer_color_witness :
    barColor ⟨0, 5, 6, 4, 5⟩ = "#2ca02c" :=
  (renderer_color ⟨0, 5, 6, 4, 5⟩).2.2 rfl

/-- **C7**: on an empty bar sequence the renderer prints the no-data
notice and returns — no plot calls, no axis setup, no error. -/
theorem renderer_empty_notice :
    plot_candlestick [] = RenderResult.noData "沒有可以繪圖的價量資料。" := rfl

/-- The enumerate loop emits, bar by bar, the segments of the bar at each
index (positional-access form). -/
theorem renderSegs_eq_join (candles : List Candle) :
    ∀ s : ℕ, renderSegs s candles =
      ((List.range candles.length).map
        (fun i => barSegs (s + i) (candles.getD i default))).flatten := by
  induction candles with
  | nil => intro s; rfl
  | cons c rest ih =>
    intro s
    show barSegs s c ++ renderSegs (s + 1) rest = _
    rw [ih (s + 1), show (c :: rest).length = rest.length + 1 from rfl,
      List.range_succ_eq_map, List.map_cons, List.flatten_cons, List.map_map]
    have hmap : (fun i => barSegs (s + 1 + i) (rest.getD i default)) =
        ((fun i => barSegs (s + i) ((c :: rest).getD i default)) ∘ Nat.succ) := by
      funext i
      show barSegs (s + 1 + i) (rest.getD i default) =
        barSegs (s + (i + 1)) ((c :: rest).getD (i + 1) default)
      rw [show s + 1 + i = s + (i + 1) by omega, List.getD_cons_succ]
    rw [hmap]
    rfl

/-- Every tick produced by `range(0, n, s)` is `j * s` at position `j`. -/
theorem pyRange_get (n s j : ℕ) (hj : j < (pyRange n s).length) :
    (pyRange n s).get ⟨j, hj⟩ = j * s := by
  simp [pyRange]

/-- Every tick produced by `range(0, n, s)` is below `n`. -/
theorem pyRange_mem_lt (n s : ℕ) (hs : 0 < s) (t : ℕ) (ht : t ∈ pyRange n s) :
    t < n := by
  rw [pyRange, List.mem_map] at ht
  obtain ⟨i, hi, rfl⟩ := ht
  rw [List.mem_range] at hi
  match n, hi with
  | 0, hi =>
    rw [show 0 + s - 1 = s - 1 by omega, Nat.div_eq_of_lt (by omega)] at hi
    exact absurd hi (Nat.not_lt_zero i)
  | m + 1, hi =>
    rw [show m + 1 + s - 1 = m + s by omega] at hi
    have h2 : (i + 1) * s ≤ (m + s) / s * s := Nat.mul_le_mul_right s hi
    have h3 : (m + s) / s * s ≤ m + s := Nat.div_mul_le_self _ _
    have h4 : i * s + s ≤ m + s := by
      calc i * s + s = (i + 1) * s := (Nat.succ_mul i s).symm
        _ ≤ (m + s) / s * s := h2
        _ ≤ m + s := h3
    have h5 : i * s ≤ m := by omega
    omega

/-- Every multiple of `s` below `n` appears among the ticks of
`range(0, n, s)`. -/
theorem pyRange_mem_of (n s : ℕ) (hs : 0 < s) (i : ℕ) (hin : i < n)
    (hmod : i % s = 0) : i ∈ pyRange n s := by
  rw [pyRange, List.mem_map]
  refine ⟨i / s, ?_, Nat.div_mul_cancel (Nat.dvd_of_mod_eq_zero hmod)⟩
  rw [List.mem_range, show n + s - 1 = (n - 1) + s by omega,
    Nat.add_div_right _ hs]
  exact Nat.lt_succ_of_le (Nat.div_le_div_right (by omega))

/-- **C8**: on a non-empty bar list of length `n` the renderer draws, for
the bar at position `i`, the low-high wick at `x = i`, the open tick on
`[i - 0.2, i]` and the close tick on `[i, i + 0.2]`, all in the bar's
colour; it sets `xlim = (-1, n)` and its tick positions are exactly the
multiples `0, s, 2s, ...` of `s = max(n // 6, 1)` below `n` (position `j`
holds `j * s`, every multiple below `n` occurs, and no tick reaches `n`),
each labelled with the corresponding bar's time. -/
theorem renderer_draworder (candles : List Candle) (hne : candles ≠ []) :
    plot_candlestick candles = RenderResult.rendered
      ⟨((List.range candles.length).map (fun i =>
          let c := candles.getD i default
          let color := barColor c
          [⟨(i : ℚ), (i : ℚ), c.low, c.high, color, 1⟩,
           ⟨(i : ℚ) - 2/10, (i : ℚ), c.open_, c.open_, color, 3⟩,
           ⟨(i : ℚ), (i : ℚ) + 2/10, c.close, c.close, color, 3⟩])).flatten,
        (-1, (candles.length : ℚ)),
        pyRange candles.length (max (candles.length / 6) 1),
        (pyRange candles.length (max (candles.length / 6) 1)).map
          (fun i => (candles.getD i default).time)⟩ ∧
    (∀ j (hj : j < (pyRange candles.length (max (candles.length / 6) 1)).length),
      (pyRange candles.length (max (candles.length / 6) 1)).get ⟨j, hj⟩ =
        j * max (candles.length / 6) 1) ∧
    (∀ i, i < candles.length → i % max (candles.length / 6) 1 = 0 →
      i ∈ pyRange candles.length (max (candles.length / 6) 1)) ∧
    (∀ t, t ∈ pyRange candles.length (max (candles.length / 6) 1) →
      t < candles.length) := by
  have hs : 0 < max (candles.length / 6) 1 :=
    lt_of_lt_of_le one_pos (le_max_right _ _)
  refine ⟨?_, fun j hj => pyRange_get _ _ j hj,
    fun i hi hm => pyRange_mem_of _ _ hs i hi hm,
    fun t ht => pyRange_mem_lt _ _ hs t ht⟩
  simp only [plot_candlestick, if_neg hne]
  rw [renderSegs_eq_join candles 0]
  simp only [Nat.zero_add]
  rfl

/-- Witness for C8: a single green bar is rendered as its three segments
with `xlim = (-1, 1)` and one tick at 0 labelled by its time. -/
theorem renderer_draworder_witness :
    plot_candlestick [⟨0, 10, 12, 9, 11⟩] = RenderResult.rendered
      ⟨((List.range ([(⟨0, 10, 12, 9, 11⟩ : Candle)] : List Candle).length).map
          (fun i =>
            let c := ([(⟨0, 10, 12, 9, 11⟩ : Candle)] : List Candle).getD i default
            let color := barColor c
            [⟨(i : ℚ), (i : ℚ), c.low, c.high, color, 1⟩,
             ⟨(i : ℚ) - 2/10, (i : ℚ), c.open_, c.open_, color, 3⟩,
             ⟨(i : ℚ), (i : ℚ) + 2/10, c.close, c.close, color, 3⟩])).flatten,
        (-1, (([(⟨0, 10, 12, 9, 11⟩ : Candle)] : List Candle).length : ℚ)),
        pyRange ([(⟨0, 10, 12, 9, 11⟩ : Candle)] : List Candle).length
          (max (([(⟨0, 10, 12, 9, 11⟩ : Candle)] : List Candle).length / 6) 1),
        (pyRange ([(⟨0, 10, 12, 9, 11⟩ : Candle)] : List Candle).length
          (max (([(⟨0, 10, 12, 9, 11⟩ : Candle)] : List Candle).length / 6) 1)).map
          (fun i => (([(⟨0, 10, 12, 9, 11⟩ : Candle)] : List Candle).getD i default).time)⟩ :=
  (renderer_draworder [⟨0, 10, 12, 9, 11⟩] (by simp)).1

/-- **C9**: rendering is a pure function of the bars' field values and
order — two field-by-field equal bar lists produce identical render
output. -/
theorem renderer_deterministic (c1 c2 : List Candle)
    (h : List.Forall₂ candleFieldsEq c1 c2) :
    plot_candlestick c1 = plot_candlestick c2 := by
  have he : c1 = c2 := by
    induction h with
    | nil => rfl
    | cons hab _ ih =>
      obtain ⟨ht, ho, hh, hl, hc⟩ := hab
      rename_i a b l1 l2 _
      cases a
      cases b
      simp_all [candleFieldsEq]
  rw [he]

/-- Witness for C9: two value-equal singleton bar lists render alike. -/
theorem renderer_deterministic_witness :
    plot_candlestick [⟨0, 1, 2, 0, 1⟩] = plot_candlestick [⟨0, 1, 2, 0, 1⟩] :=
  renderer_deterministic _ _
    (List.Forall₂.cons ⟨rfl, rfl, rfl, rfl, rfl⟩ List.Forall₂.nil)
